import Mathlib

/-!
Verification of the two scripts of `token-optimizer-mcp`:
`add_monitoring.py` (the direct-patch orchestrator built on Python's
`str.replace`) and `register-all-missing-tools.py` (the review-file
generator with its regex-based symbol extraction).

Documents are modelled as `List Char` (with a `String` facade), file
systems as partial maps `String → Option String`, and each Python
regex used by the source as a dedicated executable matcher with
Python's leftmost / greedy-with-backtracking search order.
-/

set_option maxRecDepth 100000

namespace TokenOptimizer

/-! ### Python `str.replace` -/

/-- Embedding of Python `str.replace(a, r)` on character lists: scan left to
right, replacing every non-overlapping occurrence of `a` by `r`.  The guard
`a ≠ []` matches every call site in the repository (all anchors are
non-empty literals); Python's special behaviour on an empty pattern is not
exercised by the source and is not modelled.  The extra `Nat` argument is
fuel making the recursion structural (hence kernel-evaluable); it is set to
the document length by `replaceAll` below and is provably irrelevant as long
as it is at least the document length. -/
def replaceAllF (a r : List Char) : Nat → List Char → List Char
  | _, [] => []
  | 0, _ :: _ => []
  | fuel + 1, c :: cs =>
    if a ≠ [] ∧ a.isPrefixOf (c :: cs) then
      r ++ replaceAllF a r fuel (cs.drop (a.length - 1))
    else
      c :: replaceAllF a r fuel cs

/-- `replaceAll` proper: run the worker with enough fuel (the fuel argument
of `replaceAllF` only makes the recursion structural; with `fuel ≥ d.length`
it never runs out). -/
def replaceAll (a r d : List Char) : List Char := replaceAllF a r d.length d

/-- `content.replace(a, r)` at the `String` level, as used by
`add_monitoring.py`. -/
def pyReplace (d a r : String) : String :=
  String.mk (replaceAll a.data r.data d.data)

/-- One patch step of `add_monitoring.py`:
`content = content.replace(marker, replacement)` followed by an
unconditional `print` of the step's `[OK]` line.  Returns the new document
and the line actually printed. -/
def patchStep (d a r : String) (okMsg : String) : String × String :=
  (pyReplace d a r, okMsg)

/-! ### The four anchors and replacements of `add_monitoring.py` -/

def imports_marker : String := "\x7d from \x27../tools/advanced-caching/smart-cache.js\x27;\n\n// API & Database tools"

def monitoring_imports : String := "\x7d from \x27../tools/advanced-caching/smart-cache.js\x27;\n\n// Monitoring Tools (3 tools)\nimport \x7b\n  getAlertManager,\n  ALERT_MANAGER_TOOL_DEFINITION,\n\x7d from \x27../tools/dashboard-monitoring/alert-manager.js\x27;\nimport \x7b\n  getMetricCollector,\n  METRIC_COLLECTOR_TOOL_DEFINITION,\n\x7d from \x27../tools/dashboard-monitoring/metric-collector.js\x27;\nimport \x7b\n  getMonitoringIntegration,\n  MONITORING_INTEGRATION_TOOL_DEFINITION,\n\x7d from \x27../tools/dashboard-monitoring/monitoring-integration.js\x27;\n\n// API & Database tools"

def init_marker : String := "const smartWebSocket = getSmartWebSocket(cache, tokenCounter, metrics);\n\n// File operations"

def monitoring_inits : String := "const smartWebSocket = getSmartWebSocket(cache, tokenCounter, metrics);\n\n// Initialize monitoring tools\nconst alertManager = getAlertManager(cache, tokenCounter, metrics);\nconst metricCollectorTool = getMetricCollector(cache, tokenCounter, metrics);\nconst monitoringIntegration = getMonitoringIntegration(cache, tokenCounter, metrics);\n\n// File operations"

def def_marker : String := "      SMART_WEBSOCKET_TOOL_DEFINITION,\n      // File operations"

def monitoring_defs : String := "      SMART_WEBSOCKET_TOOL_DEFINITION,\n      // Monitoring tools\n      ALERT_MANAGER_TOOL_DEFINITION,\n      METRIC_COLLECTOR_TOOL_DEFINITION,\n      MONITORING_INTEGRATION_TOOL_DEFINITION,\n      // File operations"

def handler_marker : String := "      // File operations tools disabled in live-test config"

def monitoring_handlers : String := "\n      case \x27alert_manager\x27: \x7b\n        const options = args as any;\n        const result = await alertManager.run(options);\n\n        return \x7b\n          content: [\n            \x7b\n              type: \x27text\x27,\n              text: JSON.stringify(result, null, 2),\n            \x7d,\n          ],\n        \x7d;\n      \x7d\n\n      case \x27metric_collector\x27: \x7b\n        const options = args as any;\n        const result = await metricCollectorTool.run(options);\n\n        return \x7b\n          content: [\n            \x7b\n              type: \x27text\x27,\n              text: JSON.stringify(result, null, 2),\n            \x7d,\n          ],\n        \x7d;\n      \x7d\n\n      case \x27monitoring_integration\x27: \x7b\n        const options = args as any;\n        const result = await monitoringIntegration.run(options);\n\n        return \x7b\n          content: [\n            \x7b\n              type: \x27text\x27,\n              text: JSON.stringify(result, null, 2),\n            \x7d,\n          ],\n        \x7d;\n      \x7d\n\n      // File operations tools disabled in live-test config"

/-- The whole `add_monitoring.py` run on an in-memory document: the four
patch steps in source order, returning the final document and the four
printed step lines. -/
def add_monitoring_script (doc : String) : String × List String :=
  let s1 := patchStep doc imports_marker monitoring_imports ("[OK] Added imports")
  let s2 := patchStep s1.1 init_marker monitoring_inits ("[OK] Added initializations")
  let s3 := patchStep s2.1 def_marker monitoring_defs ("[OK] Added tool definitions")
  let s4 := patchStep s3.1 handler_marker monitoring_handlers ("[OK] Added handlers")
  (s4.1, [s1.2, s2.2, s3.2, s4.2])

/-! ### The anchor-prefix / insertion / anchor-suffix decomposition of each
replacement (these literals are only a decomposition of the replacement
strings above; `*_anchor_pre ++ *_anchor_suf` re-assembles the marker and
`*_anchor_pre ++ *_insertion ++ *_anchor_suf` the replacement). -/

def imports_anchor_pre : String := "\x7d from \x27../tools/advanced-caching/smart-cache.js\x27;\n\n// "

def imports_insertion : String := "Monitoring Tools (3 tools)\nimport \x7b\n  getAlertManager,\n  ALERT_MANAGER_TOOL_DEFINITION,\n\x7d from \x27../tools/dashboard-monitoring/alert-manager.js\x27;\nimport \x7b\n  getMetricCollector,\n  METRIC_COLLECTOR_TOOL_DEFINITION,\n\x7d from \x27../tools/dashboard-monitoring/metric-collector.js\x27;\nimport \x7b\n  getMonitoringIntegration,\n  MONITORING_INTEGRATION_TOOL_DEFINITION,\n\x7d from \x27../tools/dashboard-monitoring/monitoring-integration.js\x27;\n\n// "

def imports_anchor_suf : String := "API & Database tools"

def init_anchor_pre : String := "const smartWebSocket = getSmartWebSocket(cache, tokenCounter, metrics);\n\n// "

def init_insertion : String := "Initialize monitoring tools\nconst alertManager = getAlertManager(cache, tokenCounter, metrics);\nconst metricCollectorTool = getMetricCollector(cache, tokenCounter, metrics);\nconst monitoringIntegration = getMonitoringIntegration(cache, tokenCounter, metrics);\n\n// "

def init_anchor_suf : String := "File operations"

def def_anchor_pre : String := "      SMART_WEBSOCKET_TOOL_DEFINITION,\n      // "

def def_insertion : String := "Monitoring tools\n      ALERT_MANAGER_TOOL_DEFINITION,\n      METRIC_COLLECTOR_TOOL_DEFINITION,\n      MONITORING_INTEGRATION_TOOL_DEFINITION,\n      // "

def def_anchor_suf : String := "File operations"

def handler_anchor_pre : String := ""

def handler_insertion : String := "\n      case \x27alert_manager\x27: \x7b\n        const options = args as any;\n        const result = await alertManager.run(options);\n\n        return \x7b\n          content: [\n            \x7b\n              type: \x27text\x27,\n              text: JSON.stringify(result, null, 2),\n            \x7d,\n          ],\n        \x7d;\n      \x7d\n\n      case \x27metric_collector\x27: \x7b\n        const options = args as any;\n        const result = await metricCollectorTool.run(options);\n\n        return \x7b\n          content: [\n            \x7b\n              type: \x27text\x27,\n              text: JSON.stringify(result, null, 2),\n            \x7d,\n          ],\n        \x7d;\n      \x7d\n\n      case \x27monitoring_integration\x27: \x7b\n        const options = args as any;\n        const result = await monitoringIntegration.run(options);\n\n        return \x7b\n          content: [\n            \x7b\n              type: \x27text\x27,\n              text: JSON.stringify(result, null, 2),\n            \x7d,\n          ],\n        \x7d;\n      \x7d\n\n"

def handler_anchor_suf : String := "      // File operations tools disabled in live-test config"

/-! ### Spec-side definition for refinement of §4.4 -/

/-- Follows the spec's words (§4.4): "find the first occurrence of anchor in
document and replace that occurrence with replacement", leaving the rest of
the document — in particular any later occurrence — unchanged. -/
def specReplaceFirst (a r : List Char) : List Char → List Char
  | [] => []
  | c :: cs =>
    if a ≠ [] ∧ a.isPrefixOf (c :: cs) then
      r ++ cs.drop (a.length - 1)
    else
      c :: specReplaceFirst a r cs

/-! ### `register-all-missing-tools.py`: regex matchers

Each `re.search` call of the source is embedded as a dedicated executable
matcher with Python's semantics: leftmost starting position first, greedy
character-class repetition with backtracking, greedy optional groups. -/

/-- Python `\w` over ASCII: letters, digits, underscore. -/
def isWordChar (c : Char) : Bool := c.isAlphanum || c = '_'

/-- Python `\s` over ASCII: space, tab, newline, carriage return, form feed,
vertical tab. -/
def isSpaceChar (c : Char) : Bool :=
  c = ' ' || c = '\t' || c = '\n' || c = '\x0d' || c = '\x0c' || c = '\x0b'

/-- First success of `f` over a list of candidate repetition lengths. -/
def firstSome (f : Nat → Option α) : List Nat → Option α
  | [] => none
  | n :: ns =>
    match f n with
    | some x => some x
    | none => firstSome f ns

/-- Greedy repetition of a character class with backtracking: try the longest
run of `p`-characters first, then ever shorter ones down to `minRep`, feeding
the consumed characters and the remaining input to the continuation. -/
def greedy (p : Char → Bool) (minRep : Nat) (s : List Char)
    (cont : List Char → List Char → Option α) : Option α :=
  firstSome (fun n => if n < minRep then none else cont (s.take n) (s.drop n))
    ((List.range ((s.takeWhile p).length + 1)).reverse)

/-- Match a literal, then continue on the rest. -/
def matchLit (lit : List Char) (s : List Char) (cont : List Char → Option α) :
    Option α :=
  if lit.isPrefixOf s then cont (s.drop lit.length) else none

/-- Greedy optional literal with backtracking: first try consuming it, then
try without. -/
def optLit (lit : List Char) (s : List Char)
    (cont : List Char → List Char → Option α) : Option α :=
  if lit.isPrefixOf s then
    match cont lit (s.drop lit.length) with
    | some x => some x
    | none => cont [] s
  else cont [] s

/-- Try `export const (\w+TOOL(?:_DEFINITION)?)\s*=` at this position,
returning group 1. -/
def toolDefTryAt (s : List Char) : Option (List Char) :=
  matchLit (("export const ").data) s fun s1 =>
  greedy isWordChar 1 s1 fun g1 s2 =>
  matchLit (("TOOL").data) s2 fun s3 =>
  optLit (("_DEFINITION").data) s3 fun g2 s4 =>
  greedy isSpaceChar 0 s4 fun _ s5 =>
  matchLit (("=").data) s5 fun _ =>
  some (g1 ++ ("TOOL").data ++ g2)

/-- Try `export const (\w+)\s*=\s*{\s*name:` at this position, returning
group 1. -/
def toolDefAltTryAt (s : List Char) : Option (List Char) :=
  matchLit (("export const ").data) s fun s1 =>
  greedy isWordChar 1 s1 fun g1 s2 =>
  greedy isSpaceChar 0 s2 fun _ s3 =>
  matchLit (("=").data) s3 fun s4 =>
  greedy isSpaceChar 0 s4 fun _ s5 =>
  matchLit (("\x7b").data) s5 fun s6 =>
  greedy isSpaceChar 0 s6 fun _ s7 =>
  matchLit (("name:").data) s7 fun _ =>
  some g1

/-- Try `export (?:async )?function (run\w+)` at this position, returning
group 1. -/
def runFuncTryAt (s : List Char) : Option (List Char) :=
  matchLit (("export ").data) s fun s1 =>
  optLit (("async ").data) s1 fun _ s2 =>
  matchLit (("function ").data) s2 fun s3 =>
  matchLit (("run").data) s3 fun s4 =>
  greedy isWordChar 1 s4 fun g _ =>
  some (("run").data ++ g)

/-- A character matched by Python's `['\"]` class. -/
def isQuoteChar (c : Char) : Bool := c = '\x27' || c = '"'

/-- Try `name:\s*['\"]([^'\"]+)['\"]` at this position, returning group 1. -/
def nameFieldTryAt (s : List Char) : Option (List Char) :=
  matchLit (("name:").data) s fun s1 =>
  greedy isSpaceChar 0 s1 fun _ s2 =>
  match s2 with
  | [] => none
  | c :: s3 =>
    if isQuoteChar c then
      greedy (fun d => !(isQuoteChar d)) 1 s3 fun g s4 =>
        match s4 with
        | d :: _ => if isQuoteChar d then some g else none
        | [] => none
    else none

/-- Python `re.search`: try the pattern at each position, leftmost first. -/
def reSearch (tryAt : List Char → Option α) : List Char → Option α
  | [] => tryAt []
  | c :: cs =>
    match tryAt (c :: cs) with
    | some x => some x
    | none => reSearch tryAt cs

/-! ### Casing utilities of the source -/

/-- Python `name.split('-')` on character lists (`List.splitOn` has exactly
Python's single-separator split semantics, `[[]]` on the empty string
included). -/
def splitHyphen (s : List Char) : List (List Char) := s.splitOn '-'

/-- Python `str.capitalize`: first character uppercased, the rest
lowercased. -/
def pyCapitalize : List Char → List Char
  | [] => []
  | c :: cs => c.toUpper :: cs.map Char.toLower

/-- `kebab_to_pascal` from the source: capitalize each hyphen-separated word
and concatenate. -/
def kebab_to_pascal (name : String) : String :=
  String.mk (((splitHyphen name.data).map pyCapitalize).flatten)

/-- `kebab_to_camel` from the source: first word unchanged, subsequent words
capitalized. (Python's `split` never returns an empty list, so the `[]`
case is unreachable.) -/
def kebab_to_camel (name : String) : String :=
  match splitHyphen name.data with
  | [] => ""
  | w :: ws => String.mk (w ++ (ws.map pyCapitalize).flatten)

/-! ### The three generators -/

/-- `tool.replace('-', '_').upper()` from `generate_imports`. -/
def constName (tool : String) : String :=
  String.mk ((replaceAll (("-").data) (("_").data) tool.data).map Char.toUpper)

/-- Path `src/tools/{category}/{tool}.ts` of a module's source file. -/
def toolPath (category tool : String) : String :=
  "src/tools/" ++ category ++ "/" ++ tool ++ ".ts"

/-- The definition identifier chosen by `generate_imports`: the primary
regex, then the alternate regex, then the synthesized fallback
`{const_name}_TOOL_DEFINITION`. -/
def importDefName (tool : String) (content : String) : String :=
  match reSearch toolDefTryAt content.data with
  | some g => String.mk g
  | none =>
    match reSearch toolDefAltTryAt content.data with
    | some g => String.mk g
    | none => constName tool ++ "_TOOL_DEFINITION"

/-- The handler identifier chosen by `generate_imports`: the `run\w+` regex,
with fallback `run{pascal_name}`. -/
def importRunName (tool : String) (content : String) : String :=
  match reSearch runFuncTryAt content.data with
  | some g => String.mk g
  | none => "run" ++ kebab_to_pascal tool

/-- One import block of `generate_imports`. -/
def importFragment (category tool content : String) : String :=
  "import \x7b\n  " ++ importRunName tool content ++ ",\n  " ++
    importDefName tool content ++ ",\n\x7d from \x27../tools/" ++ category ++
    "/" ++ tool ++ ".js\x27;"

/-- `generate_imports`: one import block per existing module, joined with
newlines; missing modules are skipped. -/
def generate_imports (category : String) (tools : List String)
    (fs : String → Option String) : String :=
  String.intercalate ("\n")
    (tools.filterMap fun tool =>
      (fs (toolPath category tool)).map (importFragment category tool))

/-- The `Warning: ... not found, skipping` lines printed by
`generate_imports` for missing module files. -/
def generate_imports_warnings (category : String) (tools : List String)
    (fs : String → Option String) : List String :=
  tools.filterMap fun tool =>
    match fs (toolPath category tool) with
    | none => some ("Warning: " ++ toolPath category tool ++ " not found, skipping")
    | some _ => none

/-- The dispatch key chosen by `generate_case_statements`: the `name:` field
regex, with fallback `tool.replace('-', '_')`. -/
def caseToolName (tool : String) (content : String) : String :=
  match reSearch nameFieldTryAt content.data with
  | some g => String.mk g
  | none => String.mk (replaceAll (("-").data) (("_").data) tool.data)

/-- The handler identifier chosen by `generate_case_statements`. -/
def caseRunFunc (tool : String) (content : String) : String :=
  match reSearch runFuncTryAt content.data with
  | some g => String.mk g
  | none => "run" ++ kebab_to_pascal tool

/-- One case block of `generate_case_statements`. -/
def caseFragment (tool content : String) : String :=
  "      case \x27" ++ caseToolName tool content ++
    "\x27: \x7b\n        const options = args as any;\n        const result = await " ++
    caseRunFunc tool content ++
    "(options);\n        return \x7b\n          content: [\n            \x7b\n              type: \x27text\x27,\n              text: JSON.stringify(result, null, 2),\n            \x7d,\n          ],\n        \x7d;\n      \x7d\n"

/-- `generate_case_statements`: one case block per existing module, joined
with newlines; missing modules are skipped silently. -/
def generate_case_statements (category : String) (tools : List String)
    (fs : String → Option String) : String :=
  String.intercalate ("\n")
    (tools.filterMap fun tool =>
      (fs (toolPath category tool)).map (caseFragment tool))

/-- One registry line of `generate_tool_definitions`: only produced when one
of the two definition regexes matches — there is no synthesized fallback in
this generator. -/
def toolDefFragment (content : String) : Option String :=
  match reSearch toolDefTryAt content.data with
  | some g => some ("      " ++ String.mk g ++ ",")
  | none =>
    match reSearch toolDefAltTryAt content.data with
    | some g => some ("      " ++ String.mk g ++ ",")
    | none => none

/-- `generate_tool_definitions`: registry lines for the modules whose file
exists and matches a definition regex, joined with newlines. -/
def generate_tool_definitions (category : String) (tools : List String)
    (fs : String → Option String) : String :=
  String.intercalate ("\n")
    (tools.filterMap fun tool =>
      (fs (toolPath category tool)).bind fun content => toolDefFragment content)

/-! ### The manifest and review-file `main` -/

/-- The hard-coded `UNREGISTERED_TOOLS` manifest, in source (insertion)
order. -/
def UNREGISTERED_TOOLS : List (String × List String) :=
  [("code-analysis",
    ["smart-ambiance", "smart-complexity", "smart-dependencies",
     "smart-exports", "smart-imports", "smart-refactor",
     "smart-security", "smart-symbols", "smart-typescript"]),
   ("configuration",
    ["smart-config-read", "smart-env", "smart-package-json",
     "smart-tsconfig", "smart-workflow"]),
   ("dashboard-monitoring",
    ["performance-tracker", "report-generator", "smart-dashboard"]),
   ("file-operations",
    ["smart-edit", "smart-glob", "smart-grep", "smart-read", "smart-write"]),
   ("intelligence",
    ["anomaly-explainer", "auto-remediation", "knowledge-graph", "sentiment-analysis"]),
   ("output-formatting",
    ["smart-export", "smart-format", "smart-pretty", "smart-report", "smart-stream"]),
   ("system-operations",
    ["smart-archive", "smart-process", "smart-service"])]

/-- Worker for `pyTitle`, tracking whether the previous character was a
non-letter. -/
def pyTitleGo : Bool → List Char → List Char
  | _, [] => []
  | prevNonAlpha, c :: cs =>
    (if prevNonAlpha then c.toUpper else c.toLower) :: pyTitleGo (!(c.isAlpha)) cs

/-- Python `str.title` over ASCII letters: uppercase a letter that follows a
non-letter, lowercase the remaining letters. -/
def pyTitle (s : List Char) : List Char := pyTitleGo true s

/-- `category.replace('-', ' ').title()` as used for the comment headers. -/
def categoryHeaderName (category : String) : String :=
  String.mk (pyTitle (replaceAll (("-").data) ((" ").data) category.data))

/-- The `all_imports` list of `main`: per category, a comment header then
the category's import blocks. -/
def allImports (fs : String → Option String) : List String :=
  UNREGISTERED_TOOLS.flatMap fun ct =>
    ["\n// " ++ categoryHeaderName ct.1 ++ " tools", generate_imports ct.1 ct.2 fs]

/-- The `all_defs` list of `main`. -/
def allDefs (fs : String → Option String) : List String :=
  UNREGISTERED_TOOLS.flatMap fun ct =>
    ["      // " ++ categoryHeaderName ct.1 ++ " tools", generate_tool_definitions ct.1 ct.2 fs]

/-- The `all_cases` list of `main`. -/
def allCases (fs : String → Option String) : List String :=
  UNREGISTERED_TOOLS.flatMap fun ct =>
    ["\n      // " ++ categoryHeaderName ct.1 ++ " tools", generate_case_statements ct.1 ct.2 fs]

/-- One file-system write: update one path. -/
def writeFile (fs : String → Option String) (p c : String) :
    String → Option String :=
  fun q => if q = p then some c else fs q

/-- `main()` of `register-all-missing-tools.py` (review-file mode): read the
target registration document (failing, like `read_text`, when it is
missing), generate the three artifacts from the manifest, and write them to
the three standalone review files. Returns the resulting file system. -/
def mainReview (fs : String → Option String) : Option (String → Option String) :=
  match fs ("src/server/index.ts") with
  | none => none
  | some _ =>
    let fs1 := writeFile fs ("generated-imports.txt")
      (String.intercalate ("\n") (allImports fs))
    let fs2 := writeFile fs1 ("generated-definitions.txt")
      (String.intercalate ("\n") (allDefs fs))
    let fs3 := writeFile fs2 ("generated-cases.txt")
      (String.intercalate ("\n") (allCases fs))
    some fs3

/-! ### Concrete fixtures for the end-to-end scenarios -/

/-- Scenario A module source: a conventional module exporting a definition
constant and a `run` handler. -/
def scenarioContent : String := "export const FOO_BAR_TOOL_DEFINITION = \x7b name: \x27foo_bar\x27, description: \x27demo\x27 \x7d;\nexport async function runFooBar(options) \x7b return options; \x7d\n"

/-- Scenario A file system: a single-category manifest entry `foo-bar` whose
module file exists. -/
def scenarioFs : String → Option String :=
  fun p => if p = "src/tools/alpha/foo-bar.ts" then some scenarioContent else none

/-- Scenario C module source: the file exists but matches neither
definition-constant pattern (and no `run` function either). -/
def helperOnlyContent : String := "export function helper() \x7b return 1; \x7d\n"

/-- Scenario C file system. -/
def fsHelperOnly : String → Option String :=
  fun p => if p = "src/tools/alpha/foo-bar.ts" then some helperOnlyContent else none

/-- The lowercase ASCII alphabet, the character range the slugs of the
manifest are drawn from. -/
def lowerAsciiChars : List Char := ("abcdefghijklmnopqrstuvwxyz").data

/-! ### Basic lemmas about `replaceAll` -/

/-- The fuel of `replaceAllF` is irrelevant as long as it covers the
document length. -/
theorem replaceAllF_irrel (a r : List Char) :
    ∀ f1 : Nat, ∀ d : List Char, ∀ f2 : Nat, d.length ≤ f1 → d.length ≤ f2 →
      replaceAllF a r f1 d = replaceAllF a r f2 d := by
  intro f1
  induction f1 with
  | zero =>
    intro d f2 h1 _
    have hnil : d = [] := List.eq_nil_of_length_eq_zero (Nat.le_zero.mp h1)
    subst hnil
    cases f2 <;> rfl
  | succ f ih =>
    intro d f2 h1 h2
    match d with
    | [] => cases f2 <;> rfl
    | c :: cs =>
      simp only [List.length_cons] at h1 h2
      obtain ⟨g, rfl⟩ : ∃ g, f2 = g + 1 := ⟨f2 - 1, by omega⟩
      rw [replaceAllF, replaceAllF]
      by_cases hc : a ≠ [] ∧ a.isPrefixOf (c :: cs)
      · rw [if_pos hc, if_pos hc]
        have hd : (cs.drop (a.length - 1)).length ≤ cs.length := by
          simp only [List.length_drop]
          omega
        rw [ih (cs.drop (a.length - 1)) g (by omega) (by omega)]
      · rw [if_neg hc, if_neg hc]
        rw [ih cs g (by omega) (by omega)]

theorem replaceAll_nil (a r : List Char) : replaceAll a r [] = [] := rfl

theorem replaceAll_cons_pos (a r : List Char) (c : Char) (cs : List Char)
    (h : a ≠ [] ∧ a.isPrefixOf (c :: cs)) :
    replaceAll a r (c :: cs) = r ++ replaceAll a r (cs.drop (a.length - 1)) := by
  show replaceAllF a r (c :: cs).length (c :: cs) = _
  rw [List.length_cons, replaceAllF, if_pos h]
  rw [replaceAllF_irrel a r cs.length (cs.drop (a.length - 1))
    (cs.drop (a.length - 1)).length (by simp) le_rfl]
  rfl

theorem replaceAll_cons_neg (a r : List Char) (c : Char) (cs : List Char)
    (h : ¬ (a ≠ [] ∧ a.isPrefixOf (c :: cs))) :
    replaceAll a r (c :: cs) = c :: replaceAll a r cs := by
  show replaceAllF a r (c :: cs).length (c :: cs) = _
  rw [List.length_cons, replaceAllF, if_neg h]
  rfl

/-- A head occurrence of the (non-empty) anchor is replaced, and scanning
resumes after it. -/
theorem replaceAll_head_match (a r t : List Char) (ha : a ≠ []) :
    replaceAll a r (a ++ t) = r ++ replaceAll a r t := by
  match a with
  | [] => exact absurd rfl ha
  | x :: a' =>
    have hpre : (x :: a').isPrefixOf ((x :: a') ++ t) := by
      rw [List.isPrefixOf_iff_prefix]
      exact List.prefix_append _ _
    rw [List.cons_append, replaceAll_cons_pos _ _ _ _ ⟨ha, by rw [← List.cons_append]; exact hpre⟩]
    congr 1
    congr 1
    simp

/-- If the anchor does not occur in the document at all, `replaceAll` is the
identity. -/
theorem replaceAll_no_occur (a r : List Char) :
    ∀ d : List Char, ¬ a <:+: d → replaceAll a r d = d := by
  intro d
  induction d with
  | nil => intro _; exact replaceAll_nil a r
  | cons c cs ih =>
    intro hno
    have hnpre : ¬ (a ≠ [] ∧ a.isPrefixOf (c :: cs)) := by
      rintro ⟨_, hpre⟩
      exact hno (List.IsPrefix.isInfix (List.isPrefixOf_iff_prefix.mp hpre))
    rw [replaceAll_cons_neg _ _ _ _ hnpre]
    have : ¬ a <:+: cs := fun hi => hno (List.infix_cons_iff.mpr (Or.inr hi))
    rw [ih this]

/-- When the replacement is the anchor with an insertion spliced into it
(`anchor = u ++ v`, `replacement = u ++ ins ++ v`), replacing occurrences
only ever inserts text: the original document is a sublist of the result. -/
theorem sublist_replaceAll (u ins v : List Char) :
    ∀ d : List Char, d.Sublist (replaceAll (u ++ v) (u ++ ins ++ v) d) := by
  have main : ∀ n : Nat, ∀ d : List Char, d.length ≤ n →
      d.Sublist (replaceAll (u ++ v) (u ++ ins ++ v) d) := by
    intro n
    induction n with
    | zero =>
      intro d hd
      have hnil : d = [] := List.eq_nil_of_length_eq_zero (Nat.le_zero.mp hd)
      subst hnil
      simp [replaceAll_nil]
    | succ n ih =>
      intro d hd
      match d with
      | [] => simp [replaceAll_nil]
      | c :: cs =>
        by_cases hpre : (u ++ v) ≠ [] ∧ (u ++ v).isPrefixOf (c :: cs)
        · rw [replaceAll_cons_pos _ _ _ _ hpre]
          obtain ⟨hne, hp⟩ := hpre
          obtain ⟨t, ht⟩ := List.isPrefixOf_iff_prefix.mp hp
          have hlen : 1 ≤ (u ++ v).length := by
            cases hval : u ++ v with
            | nil => exact absurd hval hne
            | cons x xs => simp [hval]
          obtain ⟨m, hm⟩ : ∃ m, (u ++ v).length = m + 1 :=
            ⟨(u ++ v).length - 1, by omega⟩
          have hdrop : cs.drop ((u ++ v).length - 1) = t := by
            have h1 := congrArg (List.drop ((u ++ v).length)) ht
            rw [List.drop_left] at h1
            rw [h1, hm]
            simp
          have htlen : t.length ≤ n := by
            have h2 := congrArg List.length ht
            simp only [List.length_append, List.length_cons] at h2
            simp only [List.length_cons] at hd
            have hlen' : 1 ≤ u.length + v.length := by simpa using hlen
            omega
          have hrec := ih t htlen
          rw [hdrop, ← ht]
          have h3 : (v ++ t).Sublist (ins ++ (v ++ replaceAll (u ++ v) (u ++ ins ++ v) t)) :=
            List.Sublist.trans (List.Sublist.append_left hrec v)
              (List.sublist_append_right ins _)
          have h4 := List.Sublist.append_left h3 u
          simpa [List.append_assoc] using h4
        · rw [replaceAll_cons_neg _ _ _ _ hpre]
          have hcs : cs.length ≤ n := by
            simp only [List.length_cons] at hd
            omega
          exact List.Sublist.cons₂ c (ih cs hcs)
  intro d
  exact main d.length d le_rfl

/-! ### Character facts for the casing proofs -/

theorem lower_char_facts : ∀ c ∈ lowerAsciiChars,
    Char.toUpper c ≠ '-' ∧ c ≠ '-' ∧ (Char.toUpper c).isUpper = true ∧
    (Char.toUpper c).toLower = c ∧ Char.toLower c = c := by decide

/-! ## Claims -/

/-- C1: the spec says the Anchor Patcher replaces only the first occurrence
of the anchor, leaving later occurrences unchanged.  Counterexample: on
document `"xabyab"` with anchor `"ab"` and replacement `"c"`, first-only
replacement (the spec's behaviour, `specReplaceFirst`) yields `"xcyab"`, but
the code's `str.replace` yields `"xcyc"` — the second occurrence is replaced
too. -/
theorem anchor_patcher_not_first_only :
    pyReplace ("xabyab") ("ab") ("c") = "xcyc" ∧
    specReplaceFirst (("ab").data) (("c").data) (("xabyab").data) = ("xcyab").data ∧
    pyReplace ("xabyab") ("ab") ("c") ≠
      String.mk (specReplaceFirst (("ab").data) (("c").data) (("xabyab").data)) := by
  refine ⟨by decide, by decide, by decide⟩

/-- C1 (amended): the Anchor Patcher replaces every non-overlapping
occurrence of the anchor, scanning left to right — when the anchor occurs
exactly once (here: at the head, with an anchor-free remainder) exactly one
replacement is performed, and when it occurs twice both occurrences are
replaced. -/
theorem anchor_patcher_replaces_every_occurrence (a r t : List Char)
    (ha : a ≠ []) (ht : ¬ a <:+: t) :
    replaceAll a r (a ++ t) = r ++ t ∧
    replaceAll a r (a ++ a ++ t) = r ++ (r ++ t) := by
  constructor
  · rw [replaceAll_head_match a r t ha, replaceAll_no_occur a r t ht]
  · rw [List.append_assoc, replaceAll_head_match a r _ ha,
      replaceAll_head_match a r t ha, replaceAll_no_occur a r t ht]

theorem anchor_patcher_replaces_every_occurrence_witness :
    replaceAll (("ab").data) (("c").data) (("ab").data ++ ("xy").data) =
      ("c").data ++ ("xy").data ∧
    replaceAll (("ab").data) (("c").data) (("ab").data ++ ("ab").data ++ ("xy").data) =
      ("c").data ++ (("c").data ++ ("xy").data) :=
  anchor_patcher_replaces_every_occurrence (("ab").data) (("c").data) (("xy").data)
    (by decide) (by decide)

/-- C2: the spec says that when the anchor does not occur, the document is
returned unchanged *and a failure is reported*.  The first half is true, but
the script prints its fixed `[OK]` success line unconditionally: the line
reported on a document without the anchor is the success line, identical to
the line reported on a document containing the anchor — no failure is ever
reported. -/
theorem patch_step_reports_ok_without_anchor :
    pyReplace ("hello world") imports_marker monitoring_imports = "hello world" ∧
    (patchStep ("hello world") imports_marker monitoring_imports ("[OK] Added imports")).2 =
      "[OK] Added imports" ∧
    (patchStep ("hello world") imports_marker monitoring_imports ("[OK] Added imports")).2 =
      (patchStep imports_marker imports_marker monitoring_imports ("[OK] Added imports")).2 := by
  refine ⟨by decide, rfl, rfl⟩

/-- C2 (amended): when the anchor does not occur in the document, the patch
step returns the document unchanged byte-for-byte, and the step's fixed
success line is printed regardless — no failure is reported. -/
theorem patch_no_occurrence_unchanged_ok (d a r ok : String)
    (h : ¬ a.data <:+: d.data) :
    pyReplace d a r = d ∧ (patchStep d a r ok).2 = ok := by
  constructor
  · show String.mk (replaceAll a.data r.data d.data) = d
    rw [replaceAll_no_occur a.data r.data d.data h]
  · rfl

theorem patch_no_occurrence_unchanged_ok_witness :
    pyReplace ("hello world") imports_marker monitoring_imports = "hello world" ∧
    (patchStep ("hello world") imports_marker monitoring_imports
      ("[OK] Added imports")).2 = "[OK] Added imports" :=
  patch_no_occurrence_unchanged_ok ("hello world") imports_marker monitoring_imports
    ("[OK] Added imports") (by decide)

/-- C3: the spec says every existing module yields a (possibly synthesized)
definition identifier and one registry line.  Counterexample: scenario C's
module file exists but matches neither definition-constant pattern, and
`generate_tool_definitions` — which, unlike `generate_imports`, has no
synthesized fallback — produces an empty registry artifact: the module is
omitted. -/
theorem registry_omits_existing_unmatched_module :
    fsHelperOnly (toolPath ("alpha") ("foo-bar")) = some helperOnlyContent ∧
    reSearch toolDefTryAt helperOnlyContent.data = none ∧
    reSearch toolDefAltTryAt helperOnlyContent.data = none ∧
    generate_tool_definitions ("alpha") (["foo-bar"]) fsHelperOnly = "" := by
  refine ⟨by decide, by decide, by decide, by decide⟩

/-- C3 (amended): for an existing module matching neither definition
pattern, the import artifact still uses the synthesized definition
identifier, but the registry artifact contains no line for the module —
such modules are omitted from the registry-entry artifact. -/
theorem registry_entry_requires_pattern_match (category tool content : String)
    (fs : String → Option String)
    (hfs : fs (toolPath category tool) = some content)
    (h1 : reSearch toolDefTryAt content.data = none)
    (h2 : reSearch toolDefAltTryAt content.data = none) :
    toolDefFragment content = none ∧
    generate_tool_definitions category [tool] fs = "" ∧
    importDefName tool content = constName tool ++ "_TOOL_DEFINITION" := by
  have hfrag : toolDefFragment content = none := by
    rw [toolDefFragment, h1, h2]
  refine ⟨hfrag, ?_, ?_⟩
  · rw [generate_tool_definitions]
    simp [hfs, hfrag]
    rfl
  · rw [importDefName, h1, h2]

theorem registry_entry_requires_pattern_match_witness :
    toolDefFragment helperOnlyContent = none ∧
    generate_tool_definitions ("alpha") (["foo-bar"]) fsHelperOnly = "" ∧
    importDefName ("foo-bar") helperOnlyContent =
      constName ("foo-bar") ++ "_TOOL_DEFINITION" :=
  registry_entry_requires_pattern_match ("alpha") ("foo-bar") helperOnlyContent
    fsHelperOnly (by decide) (by decide) (by decide)

/-- C4: the spec's invariant says each replacement literally begins with its
anchor.  Counterexample: none of the four patches of `add_monitoring.py`
satisfies it — for each patch, the anchor is not a prefix of the
replacement (the replacements diverge from their anchors inside the trailing
comment, and the handlers replacement even starts with a newline the anchor
does not have). -/
theorem no_replacement_begins_with_its_anchor :
    imports_marker.data.isPrefixOf monitoring_imports.data = false ∧
    init_marker.data.isPrefixOf monitoring_inits.data = false ∧
    def_marker.data.isPrefixOf monitoring_defs.data = false ∧
    handler_marker.data.isPrefixOf monitoring_handlers.data = false := by
  refine ⟨by decide, by decide, by decide, by decide⟩

/-- C4 (amended): for each of the four patches the anchor is instead split
into a prefix and a suffix, and the replacement equals that anchor-prefix,
then the inserted lines, then that anchor-suffix; in the handlers patch the
anchor-prefix is empty, i.e. the anchor is a verbatim suffix of the
replacement. -/
theorem replacement_splices_insertion_into_anchor :
    (imports_anchor_pre ++ imports_anchor_suf = imports_marker ∧
     imports_anchor_pre ++ imports_insertion ++ imports_anchor_suf = monitoring_imports) ∧
    (init_anchor_pre ++ init_anchor_suf = init_marker ∧
     init_anchor_pre ++ init_insertion ++ init_anchor_suf = monitoring_inits) ∧
    (def_anchor_pre ++ def_anchor_suf = def_marker ∧
     def_anchor_pre ++ def_insertion ++ def_anchor_suf = monitoring_defs) ∧
    (handler_anchor_pre ++ handler_anchor_suf = handler_marker ∧
     handler_anchor_pre ++ handler_insertion ++ handler_anchor_suf = monitoring_handlers ∧
     handler_anchor_pre = "") := by
  refine ⟨⟨by decide, by decide⟩, ⟨by decide, by decide⟩,
    ⟨by decide, by decide⟩, by decide, by decide, by decide⟩

/-- C5: end-to-end scenario A — for the manifest entry `alpha ↦ [foo-bar]`
with a module file exporting `FOO_BAR_TOOL_DEFINITION = { name: 'foo_bar',
... }` and `async function runFooBar`, the generated import fragment imports
`runFooBar` and `FOO_BAR_TOOL_DEFINITION`, and the dispatch fragment's case
label is `'foo_bar'` and invokes `runFooBar`. -/
theorem scenario_a_import_and_dispatch :
    generate_imports ("alpha") (["foo-bar"]) scenarioFs =
      "import \x7b\n  runFooBar,\n  FOO_BAR_TOOL_DEFINITION,\n\x7d from \x27../tools/alpha/foo-bar.js\x27;" ∧
    generate_case_statements ("alpha") (["foo-bar"]) scenarioFs =
      "      case \x27foo_bar\x27: \x7b\n        const options = args as any;\n        const result = await runFooBar(options);\n        return \x7b\n          content: [\n            \x7b\n              type: \x27text\x27,\n              text: JSON.stringify(result, null, 2),\n            \x7d,\n          ],\n        \x7d;\n      \x7d\n" := by
  refine ⟨by decide, by decide⟩

/-- Unfolding of `kebab_to_pascal` along a computed split. -/
theorem kebab_to_pascal_eq (s : String) (l : List (List Char))
    (h : splitHyphen s.data = l) :
    (kebab_to_pascal s).data = (l.map pyCapitalize).flatten := by
  unfold kebab_to_pascal
  rw [h]

/-- Unfolding of `kebab_to_camel` along a computed split. -/
theorem kebab_to_camel_eq (s : String) (w : List Char) (ws2 : List (List Char))
    (h : splitHyphen s.data = w :: ws2) :
    (kebab_to_camel s).data = w ++ (ws2.map pyCapitalize).flatten := by
  unfold kebab_to_camel
  rw [h]

/-- C6: for every non-empty hyphen-delimited lowercase slug
(`intercalate "-" ws` for non-empty `ws` with non-empty all-lowercase
words), `kebab_to_pascal` contains no hyphen, is the concatenation of the
capitalized words — each word boundary becoming an uppercase letter — and
`kebab_to_camel` differs from it exactly in the case of the first
character. -/
theorem kebab_casing_correct (ws : List (List Char)) (hne : ws ≠ [])
    (hw : ∀ w ∈ ws, w ≠ [] ∧ ∀ c ∈ w, c ∈ lowerAsciiChars) :
    ('-' ∉ (kebab_to_pascal (String.mk (List.intercalate (['-']) ws))).data) ∧
    (kebab_to_pascal (String.mk (List.intercalate (['-']) ws))).data =
      (ws.map pyCapitalize).flatten ∧
    (∀ w ∈ ws, ∃ c cs, w = c :: cs ∧ pyCapitalize w = c.toUpper :: cs ∧
      (c.toUpper).isUpper = true) ∧
    (∃ c cs,
      (kebab_to_pascal (String.mk (List.intercalate (['-']) ws))).data = c :: cs ∧
      (kebab_to_camel (String.mk (List.intercalate (['-']) ws))).data = c.toLower :: cs) := by
  have hx : ∀ l ∈ ws, '-' ∉ l := by
    intro l hl hcon
    exact (lower_char_facts '-' ((hw l hl).2 '-' hcon)).2.1 rfl
  have hsplit : splitHyphen ((String.mk (List.intercalate (['-']) ws)).data) = ws := by
    show splitHyphen (List.intercalate (['-']) ws) = ws
    rw [splitHyphen]
    exact List.splitOn_intercalate ws '-' hx hne
  have hcap : ∀ w ∈ ws, ∃ c cs, w = c :: cs ∧ pyCapitalize w = c.toUpper :: cs ∧
      (c.toUpper).isUpper = true := by
    intro w hwmem
    obtain ⟨hwne, hlow⟩ := hw w hwmem
    match w, hwne with
    | c :: cs, _ =>
      refine ⟨c, cs, rfl, ?_,
        (lower_char_facts c (hlow c (List.mem_cons_self c cs))).2.2.1⟩
      rw [pyCapitalize]
      congr 1
      have hid : ∀ x ∈ cs, Char.toLower x = x := fun x hx2 =>
        (lower_char_facts x (hlow x (List.mem_cons_of_mem c hx2))).2.2.2.2
      calc cs.map Char.toLower = cs.map id := List.map_congr_left hid
        _ = cs := List.map_id cs
  have hpdata := kebab_to_pascal_eq (String.mk (List.intercalate (['-']) ws)) ws hsplit
  have hnh : '-' ∉ (ws.map pyCapitalize).flatten := by
    intro hmem
    rw [List.mem_flatten] at hmem
    obtain ⟨l, hl, hcl⟩ := hmem
    rw [List.mem_map] at hl
    obtain ⟨w, hwmem, rfl⟩ := hl
    obtain ⟨c, cs, rfl, hcapw, _⟩ := hcap w hwmem
    rw [hcapw] at hcl
    rcases List.mem_cons.mp hcl with hcl | hcl
    · exact (lower_char_facts c
        ((hw _ hwmem).2 c (List.mem_cons_self c cs))).1 hcl.symm
    · exact (lower_char_facts '-'
        ((hw _ hwmem).2 '-' (List.mem_cons_of_mem c hcl))).2.1 rfl
  refine ⟨by rw [hpdata]; exact hnh, hpdata, hcap, ?_⟩
  match ws, hne, hw, hsplit, hcap with
  | w0 :: rest, _, hw, hsplit, hcap =>
    obtain ⟨c, cs, hw0, hcapw0, _⟩ := hcap w0 (List.mem_cons_self w0 rest)
    have hpdata2 := kebab_to_pascal_eq (String.mk (List.intercalate (['-']) (w0 :: rest)))
      (w0 :: rest) hsplit
    have hcam := kebab_to_camel_eq (String.mk (List.intercalate (['-']) (w0 :: rest)))
      w0 rest hsplit
    refine ⟨c.toUpper, cs ++ (rest.map pyCapitalize).flatten, ?_, ?_⟩
    · rw [hpdata2, List.map_cons, List.flatten_cons, hcapw0]
      rfl
    · rw [hcam, hw0]
      have hlc : (c.toUpper).toLower = c :=
        (lower_char_facts c ((hw w0 (List.mem_cons_self w0 rest)).2 c
          (hw0 ▸ List.mem_cons_self c cs))).2.2.2.1
      rw [hlc]
      rfl

theorem kebab_casing_correct_witness :
    ('-' ∉ (kebab_to_pascal (String.mk (List.intercalate (['-'])
      ([("foo").data, ("bar").data])))).data) ∧
    (kebab_to_pascal (String.mk (List.intercalate (['-'])
      ([("foo").data, ("bar").data])))).data =
      (([("foo").data, ("bar").data]).map pyCapitalize).flatten ∧
    (∀ w ∈ [("foo").data, ("bar").data], ∃ c cs, w = c :: cs ∧
      pyCapitalize w = c.toUpper :: cs ∧ (c.toUpper).isUpper = true) ∧
    (∃ c cs,
      (kebab_to_pascal (String.mk (List.intercalate (['-'])
        ([("foo").data, ("bar").data])))).data = c :: cs ∧
      (kebab_to_camel (String.mk (List.intercalate (['-'])
        ([("foo").data, ("bar").data])))).data = c.toLower :: cs) :=
  kebab_casing_correct ([("foo").data, ("bar").data]) (by decide) (by decide)

/-- C7: for an existing module file matching neither definition-constant
pattern, the definition identifier used in the import fragment is
synthesized purely from the slug — the slug with hyphens replaced by
underscores, uppercased, suffixed `_TOOL_DEFINITION` (`constName` embeds
`tool.replace('-', '_').upper()`) — independent of the rest of the file
content; for slug `foo-bar` it is `FOO_BAR_TOOL_DEFINITION`. -/
theorem synthesized_def_name_from_slug (category tool content : String)
    (h1 : reSearch toolDefTryAt content.data = none)
    (h2 : reSearch toolDefAltTryAt content.data = none) :
    importDefName tool content = constName tool ++ "_TOOL_DEFINITION" ∧
    importDefName ("foo-bar") content = "FOO_BAR_TOOL_DEFINITION" ∧
    importFragment category tool content =
      "import \x7b\n  " ++ importRunName tool content ++ ",\n  " ++
        (constName tool ++ "_TOOL_DEFINITION") ++ ",\n\x7d from \x27../tools/" ++
        category ++ "/" ++ tool ++ ".js\x27;" := by
  have hgen : ∀ t : String, importDefName t content = constName t ++ "_TOOL_DEFINITION" := by
    intro t
    rw [importDefName, h1, h2]
  refine ⟨hgen tool, ?_, ?_⟩
  · rw [hgen ("foo-bar")]
    decide
  · rw [importFragment, hgen tool]

theorem synthesized_def_name_from_slug_witness :
    importDefName ("foo-bar") ("") = constName ("foo-bar") ++ "_TOOL_DEFINITION" ∧
    importDefName ("foo-bar") ("") = "FOO_BAR_TOOL_DEFINITION" ∧
    importFragment ("beta") ("foo-bar") ("") =
      "import \x7b\n  " ++ importRunName ("foo-bar") ("") ++ ",\n  " ++
        (constName ("foo-bar") ++ "_TOOL_DEFINITION") ++ ",\n\x7d from \x27../tools/" ++
        ("beta") ++ "/" ++ ("foo-bar") ++ ".js\x27;" :=
  synthesized_def_name_from_slug ("beta") ("foo-bar") ("") (by decide) (by decide)

/-- C8: a manifest entry whose module file does not exist is omitted from
all three generated artifacts (each generator's output equals the output of
the manifest without that entry), a `Warning: ... not found, skipping`
diagnostic is emitted for it, and the remaining modules are still
processed. -/
theorem missing_module_skipped (category slug : String) (ts1 ts2 : List String)
    (fs : String → Option String) (h : fs (toolPath category slug) = none) :
    generate_imports category (ts1 ++ slug :: ts2) fs =
      generate_imports category (ts1 ++ ts2) fs ∧
    generate_tool_definitions category (ts1 ++ slug :: ts2) fs =
      generate_tool_definitions category (ts1 ++ ts2) fs ∧
    generate_case_statements category (ts1 ++ slug :: ts2) fs =
      generate_case_statements category (ts1 ++ ts2) fs ∧
    ("Warning: " ++ toolPath category slug ++ " not found, skipping") ∈
      generate_imports_warnings category (ts1 ++ slug :: ts2) fs := by
  refine ⟨?_, ?_, ?_, ?_⟩
  · simp [generate_imports, List.filterMap_append, List.filterMap_cons, h]
  · simp [generate_tool_definitions, List.filterMap_append, List.filterMap_cons, h]
  · simp [generate_case_statements, List.filterMap_append, List.filterMap_cons, h]
  · simp [generate_imports_warnings, List.filterMap_append, List.filterMap_cons, h]

theorem missing_module_skipped_witness :
    generate_imports ("alpha") ([] ++ ("foo-bar") :: []) (fun _ => none) =
      generate_imports ("alpha") ([] ++ []) (fun _ => none) ∧
    generate_tool_definitions ("alpha") ([] ++ ("foo-bar") :: []) (fun _ => none) =
      generate_tool_definitions ("alpha") ([] ++ []) (fun _ => none) ∧
    generate_case_statements ("alpha") ([] ++ ("foo-bar") :: []) (fun _ => none) =
      generate_case_statements ("alpha") ([] ++ []) (fun _ => none) ∧
    ("Warning: " ++ toolPath ("alpha") ("foo-bar") ++ " not found, skipping") ∈
      generate_imports_warnings ("alpha") ([] ++ ("foo-bar") :: []) (fun _ => none) :=
  missing_module_skipped ("alpha") ("foo-bar") [] [] (fun _ => none) rfl

/-- C9: in review-file mode the run never writes the target registration
document — the file system returned by `mainReview` agrees with the input
on `src/server/index.ts` and on every path other than the three standalone
review files, to which all generated output goes. -/
theorem review_mode_preserves_target (fs : String → Option String)
    (h : (fs ("src/server/index.ts")).isSome = true) (p : String)
    (hp1 : p ≠ "generated-imports.txt") (hp2 : p ≠ "generated-definitions.txt")
    (hp3 : p ≠ "generated-cases.txt") :
    ∃ fs2, mainReview fs = some fs2 ∧ fs2 p = fs p ∧
      fs2 ("src/server/index.ts") = fs ("src/server/index.ts") := by
  obtain ⟨c, hc⟩ := Option.isSome_iff_exists.mp h
  refine ⟨writeFile (writeFile (writeFile fs ("generated-imports.txt")
      (String.intercalate ("\n") (allImports fs))) ("generated-definitions.txt")
      (String.intercalate ("\n") (allDefs fs))) ("generated-cases.txt")
      (String.intercalate ("\n") (allCases fs)), ?_, ?_, ?_⟩
  · unfold mainReview
    rw [hc]
  · show (if p = "generated-cases.txt" then _ else
      (if p = "generated-definitions.txt" then _ else
        (if p = "generated-imports.txt" then _ else fs p))) = fs p
    rw [if_neg hp3, if_neg hp2, if_neg hp1]
  · show (if "src/server/index.ts" = "generated-cases.txt" then _ else
      (if "src/server/index.ts" = "generated-definitions.txt" then _ else
        (if "src/server/index.ts" = "generated-imports.txt" then _
          else fs ("src/server/index.ts")))) = fs ("src/server/index.ts")
    rw [if_neg (by decide), if_neg (by decide), if_neg (by decide)]

/-- A file system holding only an (empty) target registration document,
used to instantiate C9's theorem. -/
def demoFs : String → Option String :=
  fun q => if q = "src/server/index.ts" then some ("") else none

theorem review_mode_preserves_target_witness :
    ∃ fs2, mainReview demoFs = some fs2 ∧
      fs2 ("src/server/index.ts") = demoFs ("src/server/index.ts") ∧
      fs2 ("src/server/index.ts") = demoFs ("src/server/index.ts") :=
  review_mode_preserves_target demoFs (by decide) ("src/server/index.ts")
    (by decide) (by decide) (by decide)

/-- C10: each of the four replacement strings of the direct-patch script
equals a prefix of its own anchor, then inserted lines, then the remaining
suffix of that anchor; consequently a patch only inserts text — for every
document, the original document is a subsequence (`List.Sublist`) of the
patched document, so every character of the original is preserved, in
order. -/
theorem patches_only_insert_original_preserved :
    (imports_anchor_pre.data ++ imports_anchor_suf.data = imports_marker.data ∧
     imports_anchor_pre.data ++ imports_insertion.data ++ imports_anchor_suf.data =
       monitoring_imports.data) ∧
    (init_anchor_pre.data ++ init_anchor_suf.data = init_marker.data ∧
     init_anchor_pre.data ++ init_insertion.data ++ init_anchor_suf.data =
       monitoring_inits.data) ∧
    (def_anchor_pre.data ++ def_anchor_suf.data = def_marker.data ∧
     def_anchor_pre.data ++ def_insertion.data ++ def_anchor_suf.data =
       monitoring_defs.data) ∧
    (handler_anchor_pre.data ++ handler_anchor_suf.data = handler_marker.data ∧
     handler_anchor_pre.data ++ handler_insertion.data ++ handler_anchor_suf.data =
       monitoring_handlers.data) ∧
    (∀ d : List Char,
      d.Sublist (replaceAll imports_marker.data monitoring_imports.data d) ∧
      d.Sublist (replaceAll init_marker.data monitoring_inits.data d) ∧
      d.Sublist (replaceAll def_marker.data monitoring_defs.data d) ∧
      d.Sublist (replaceAll handler_marker.data monitoring_handlers.data d)) := by
  have h1a : imports_anchor_pre.data ++ imports_anchor_suf.data = imports_marker.data := by
    decide
  have h1b : imports_anchor_pre.data ++ imports_insertion.data ++ imports_anchor_suf.data =
      monitoring_imports.data := by decide
  have h2a : init_anchor_pre.data ++ init_anchor_suf.data = init_marker.data := by decide
  have h2b : init_anchor_pre.data ++ init_insertion.data ++ init_anchor_suf.data =
      monitoring_inits.data := by decide
  have h3a : def_anchor_pre.data ++ def_anchor_suf.data = def_marker.data := by decide
  have h3b : def_anchor_pre.data ++ def_insertion.data ++ def_anchor_suf.data =
      monitoring_defs.data := by decide
  have h4a : handler_anchor_pre.data ++ handler_anchor_suf.data = handler_marker.data := by
    decide
  have h4b : handler_anchor_pre.data ++ handler_insertion.data ++ handler_anchor_suf.data =
      monitoring_handlers.data := by decide
  refine ⟨⟨h1a, h1b⟩, ⟨h2a, h2b⟩, ⟨h3a, h3b⟩, ⟨h4a, h4b⟩, ?_⟩
  intro d
  refine ⟨?_, ?_, ?_, ?_⟩
  · have hs := sublist_replaceAll imports_anchor_pre.data imports_insertion.data
      imports_anchor_suf.data d
    rwa [h1a, h1b] at hs
  · have hs := sublist_replaceAll init_anchor_pre.data init_insertion.data
      init_anchor_suf.data d
    rwa [h2a, h2b] at hs
  · have hs := sublist_replaceAll def_anchor_pre.data def_insertion.data
      def_anchor_suf.data d
    rwa [h3a, h3b] at hs
  · have hs := sublist_replaceAll handler_anchor_pre.data handler_insertion.data
      handler_anchor_suf.data d
    rwa [h4a, h4b] at hs

end TokenOptimizer
